import Mathlib

set_option linter.unusedVariables false

/-!
Shallow embedding of the auth-frontend-svelte repository: the Firebase auth
service facade (src/lib/firebase.ts, both the base and the extended variant),
the error normalizer and its friendly-message table, and the submit handlers
of the login, register, reset-password and MFA-challenge form components.

JavaScript effects are made explicit: the module-level `firebaseApp`/`auth`
singletons become a state record threaded through `initFirebaseAuth` and
`getAuthService`; each async facade operation is a function from the outcome
of its underlying SDK call to the value the returned promise settles with;
thrown JS values are a dedicated sum type.
-/

namespace AuthFrontend

/-- Model of an arbitrary JavaScript value as far as `normalizeError` can
observe it: it only inspects `typeof`, null-ness, presence of string-valued
`code` / `message` fields, and `instanceof Error`. -/
inductive JsValue where
  /-- an object that is an `Error` instance; `code` is its optional
  string-valued `code` field, `message` its `message` string (every
  `Error` carries a `message`) -/
  | errObj (code : Option String) (message : String)
  /-- a non-null object that is not an `Error` instance, with optional
  string-valued `code` and `message` fields -/
  | plainObj (code : Option String) (message : Option String)
  /-- a primitive value or `null`/`undefined` (so `typeof` is not
  `object`, or the value is `null`); `desc` describes it -/
  | nonObj (desc : String)
deriving Repr, DecidableEq

/-- Value of the `code` field when the input is an object carrying one
(`typeof error === 'object' && error !== null && 'code' in error`). -/
def JsValue.codeField : JsValue → Option String
  | .errObj c _ => c
  | .plainObj c _ => c
  | .nonObj _ => none

/-- Value of the `message` field when the input is an object carrying one. -/
def JsValue.messageField : JsValue → Option String
  | .errObj _ m => some m
  | .plainObj _ m => m
  | .nonObj _ => none

/-- The `message` of the input when it is an `Error` instance
(`error instanceof Error`). -/
def JsValue.errorInstanceMessage : JsValue → Option String
  | .errObj _ m => some m
  | _ => none

/-- The normalized error shape `{code, message, originalError}` of
src/lib/types (AuthError). -/
structure AuthError where
  code : String
  message : String
  originalError : JsValue
deriving Repr, DecidableEq

/-- A value thrown inside the library: either a raw JS value propagated as-is
(no catch on its path), or an `AuthError` object produced by
`normalizeError`. -/
inductive Thrown where
  | raw (e : JsValue)
  | normalized (e : AuthError)
deriving Repr, DecidableEq

/-- Static code-to-message table of `getUserFriendlyMessage`
(firebase.ts lines 206-221, base variant). -/
def friendlyMessages : List (String × String) :=
  [("auth/email-already-in-use", "This email is already registered"),
   ("auth/invalid-email", "Please enter a valid email address"),
   ("auth/operation-not-allowed", "This operation is not allowed"),
   ("auth/weak-password", "Password should be at least 6 characters"),
   ("auth/user-disabled", "This account has been disabled"),
   ("auth/user-not-found", "No account found with this email"),
   ("auth/wrong-password", "Incorrect email or password"),
   ("auth/invalid-credential", "Invalid email or password"),
   ("auth/too-many-requests", "Too many attempts. Please try again later"),
   ("auth/network-request-failed", "Network error. Please check your connection"),
   ("auth/popup-closed-by-user", "Sign-in cancelled"),
   ("auth/expired-action-code", "This link has expired"),
   ("auth/invalid-action-code", "Invalid or expired link"),
   ("auth/requires-recent-login", "Please sign in again to continue")]

/-- Static code-to-message table of the extended variant's
`getUserFriendlyMessage` (firebase.ts lines 544-562): the base table plus
three MFA-related entries. -/
def friendlyMessagesExt : List (String × String) :=
  friendlyMessages ++
  [("auth/multi-factor-auth-required", "Please verify your identity with a second factor"),
   ("auth/invalid-verification-code", "Invalid verification code. Please try again"),
   ("auth/unverified-email", "Please verify your email address first")]

/-- `getUserFriendlyMessage(code, defaultMessage)` (firebase.ts lines
205-224): `messages[code] || defaultMessage`. Every message in the table is a
non-empty (truthy) string, so the JS `||` is exactly an option-default. -/
def getUserFriendlyMessage (code : String) (defaultMessage : String) : String :=
  (friendlyMessages.lookup code).getD defaultMessage

/-- Extended variant of `getUserFriendlyMessage` (firebase.ts lines
543-565). -/
def getUserFriendlyMessageExt (code : String) (defaultMessage : String) : String :=
  (friendlyMessagesExt.lookup code).getD defaultMessage

/-- `normalizeError(error)` (firebase.ts lines 185-200): if the input is a
non-null object with both a `code` and a `message` field, wrap it with the
friendly message; otherwise return the `unknown`-coded shape, taking the
message from the input when it is an `Error` instance. -/
def normalizeError (error : JsValue) : AuthError :=
  match error.codeField, error.messageField with
  | some c, some m =>
      { code := c
        message := getUserFriendlyMessage c m
        originalError := error }
  | _, _ =>
      { code := "unknown"
        message := (error.errorInstanceMessage).getD "An unknown error occurred"
        originalError := error }

/-- Firebase project configuration (src/lib/types FirebaseConfig, required
fields). -/
structure FirebaseConfig where
  apiKey : String
  authDomain : String
  projectId : String
  appId : String
deriving Repr, DecidableEq

/-- Options accepted by `initFirebaseAuth` (src/lib/types AuthOptions).
`persistence` keeps the raw optional string; `hasOnAuthStateChanged` records
whether a callback was supplied. Both only drive SDK side effects
(setPersistence, listener registration) that do not touch the singletons. -/
structure AuthOptions where
  config : FirebaseConfig
  persistence : Option String := none
  hasOnAuthStateChanged : Bool := false
deriving Repr, DecidableEq

/-- A FirebaseApp instance: `id` is its allocation identity (two apps created
by distinct `initializeApp` calls have distinct ids), `config` the
configuration it was created from. -/
structure FirebaseApp where
  id : Nat
  config : FirebaseConfig
deriving Repr, DecidableEq

/-- An Auth client instance: `id` is its allocation identity, `appId` the id
of the FirebaseApp it was obtained from via `getAuth`. -/
structure Auth where
  id : Nat
  appId : Nat
deriving Repr, DecidableEq

/-- The module-level mutable state of firebase.ts: the `firebaseApp` and
`auth` singletons (both initially `null`), plus an allocation counter that
models object identity of SDK-created instances. -/
structure FbState where
  firebaseApp : Option FirebaseApp
  auth : Option Auth
  nextId : Nat
deriving Repr, DecidableEq

/-- The state before `initFirebaseAuth` has ever been called: both singletons
are null. -/
def FbState.initial : FbState :=
  { firebaseApp := none, auth := none, nextId := 0 }

/-- The `app`/`auth` fields of the service object returned by
`initFirebaseAuth` / `getAuthService`. The async methods of the service are
modelled separately as functions of their SDK-call outcomes. -/
structure ServiceHandle where
  app : FirebaseApp
  auth : Auth
deriving Repr, DecidableEq

/-- `initFirebaseAuth(options)` (firebase.ts lines 35-44 and 317-326; the
singleton logic is identical in both variants): create the app only if the
`firebaseApp` singleton is null, create the auth client only if the `auth`
singleton is null, and return the service built over the stored singletons.
The persistence selection and the optional auth-state listener are SDK side
effects that read but never write the singletons, so they do not appear in
the state. -/
def initFirebaseAuth (options : AuthOptions) (s : FbState) : FbState × ServiceHandle :=
  let appStep : FirebaseApp × FbState :=
    match s.firebaseApp with
    | some a => (a, s)
    | none =>
        let a : FirebaseApp := { id := s.nextId, config := options.config }
        (a, { s with firebaseApp := some a, nextId := s.nextId + 1 })
  let app := appStep.1
  let s1 := appStep.2
  let authStep : Auth × FbState :=
    match s1.auth with
    | some x => (x, s1)
    | none =>
        let x : Auth := { id := s1.nextId, appId := app.id }
        (x, { s1 with auth := some x, nextId := s1.nextId + 1 })
  (authStep.2, { app := app, auth := authStep.1 })

/-- The exact message of the error thrown by both variants of
`getAuthService` when the singletons are not initialized. -/
def notInitializedMessage : String :=
  "Firebase Auth not initialized. Call initFirebaseAuth() first."

/-- `getAuthService()` (firebase.ts lines 229-278, base variant): throw when
either singleton is null, otherwise return a service over the stored
singletons (whose methods, lines 238-276, call the SDK without any
try/catch). -/
def getAuthService (s : FbState) : Except String ServiceHandle :=
  match s.firebaseApp, s.auth with
  | some app, some au => .ok { app := app, auth := au }
  | _, _ => .error notInitializedMessage

/-- `getAuthService()` (firebase.ts lines 570-581, extended variant): throw
when either singleton is null, otherwise delegate to `initFirebaseAuth` with
the existing app's configuration and `local` persistence. -/
def getAuthServiceExt (s : FbState) : Except String (FbState × ServiceHandle) :=
  match s.firebaseApp, s.auth with
  | some app, some _ =>
      .ok (initFirebaseAuth { config := app.config, persistence := some "local" } s)
  | _, _ => .error notInitializedMessage

/-- A signed-in user as far as the facade observes it. -/
structure User where
  uid : String
  displayName : Option String
deriving Repr, DecidableEq

/-- A UserCredential returned by the SDK sign-in/sign-up calls; `user` may be
null. -/
structure UserCredential where
  user : Option User
deriving Repr, DecidableEq

/-- Login credentials (src/lib/types LoginCredentials). -/
structure LoginCredentials where
  email : String
  password : String
deriving Repr, DecidableEq

/-- Registration data (src/lib/types RegisterData); `displayName` optional. -/
structure RegisterData where
  email : String
  password : String
  displayName : Option String := none
deriving Repr, DecidableEq

/-- Outcome of one underlying SDK call: the value it resolves with, or the JS
value its promise rejects with. -/
def SdkOutcome (α : Type) := Except JsValue α

/-- The raw `Error('Auth not initialized')` thrown by the facade guard (it
sits before the try block, so it escapes unnormalized). -/
def authNotInitializedError : JsValue := .errObj none "Auth not initialized"

/-- The raw `Error('No user signed in')` thrown by the current-user guard. -/
def noUserSignedInError : JsValue := .errObj none "No user signed in"

/-- `signIn` from `initFirebaseAuth` (firebase.ts lines 66-73): guard on the
`auth` singleton, then await the SDK sign-in, catching any failure and
re-throwing `normalizeError` of it. -/
def initSignIn (auth : Option Auth) (credentials : LoginCredentials)
    (sdk : SdkOutcome UserCredential) : Except Thrown UserCredential :=
  match auth with
  | none => .error (.raw authNotInitializedError)
  | some _ =>
      match sdk with
      | .ok uc => .ok uc
      | .error e => .error (.normalized (normalizeError e))

/-- The JS truthiness test `data.displayName && userCredential.user`
(firebase.ts line 88): the optional display name is present and non-empty,
and the credential's user is non-null. -/
def shouldUpdateProfile (data : RegisterData) (uc : UserCredential) : Bool :=
  (match data.displayName with
   | some d => d ≠ ""
   | none => false) && uc.user.isSome

/-- `register` from `initFirebaseAuth` (firebase.ts lines 78-98): create the
user, optionally update the profile with the display name, both inside one
try whose catch re-throws `normalizeError` of the failure. -/
def initRegister (auth : Option Auth) (data : RegisterData)
    (createSdk : SdkOutcome UserCredential) (updateSdk : SdkOutcome Unit) :
    Except Thrown UserCredential :=
  match auth with
  | none => .error (.raw authNotInitializedError)
  | some _ =>
      match createSdk with
      | .error e => .error (.normalized (normalizeError e))
      | .ok uc =>
          if shouldUpdateProfile data uc then
            match updateSdk with
            | .error e => .error (.normalized (normalizeError e))
            | .ok _ => .ok uc
          else .ok uc

/-- `signOut` from `initFirebaseAuth` (firebase.ts lines 103-110). -/
def initSignOut (auth : Option Auth) (sdk : SdkOutcome Unit) : Except Thrown Unit :=
  match auth with
  | none => .error (.raw authNotInitializedError)
  | some _ =>
      match sdk with
      | .ok u => .ok u
      | .error e => .error (.normalized (normalizeError e))

/-- `sendPasswordReset` from `initFirebaseAuth` (firebase.ts lines
115-122). -/
def initSendPasswordReset (auth : Option Auth) (email : String)
    (sdk : SdkOutcome Unit) : Except Thrown Unit :=
  match auth with
  | none => .error (.raw authNotInitializedError)
  | some _ =>
      match sdk with
      | .ok u => .ok u
      | .error e => .error (.normalized (normalizeError e))

/-- `confirmPasswordReset` from `initFirebaseAuth` (firebase.ts lines
127-134). -/
def initConfirmPasswordReset (auth : Option Auth) (code newPassword : String)
    (sdk : SdkOutcome Unit) : Except Thrown Unit :=
  match auth with
  | none => .error (.raw authNotInitializedError)
  | some _ =>
      match sdk with
      | .ok u => .ok u
      | .error e => .error (.normalized (normalizeError e))

/-- `sendEmailVerification` from `initFirebaseAuth` (firebase.ts lines
147-154): guards on `auth?.currentUser`. -/
def initSendEmailVerification (currentUser : Option User)
    (sdk : SdkOutcome Unit) : Except Thrown Unit :=
  match currentUser with
  | none => .error (.raw noUserSignedInError)
  | some _ =>
      match sdk with
      | .ok u => .ok u
      | .error e => .error (.normalized (normalizeError e))

/-- `reloadUser` from `initFirebaseAuth` (firebase.ts lines 159-166). -/
def initReloadUser (currentUser : Option User) (sdk : SdkOutcome Unit) :
    Except Thrown Unit :=
  match currentUser with
  | none => .error (.raw noUserSignedInError)
  | some _ =>
      match sdk with
      | .ok u => .ok u
      | .error e => .error (.normalized (normalizeError e))

/-- `signIn` from the base variant's `getAuthService` (firebase.ts lines
238-241): guard, then await the SDK call with no try/catch, so an SDK
rejection propagates as the raw JS value. -/
def gasSignIn (auth : Option Auth) (credentials : LoginCredentials)
    (sdk : SdkOutcome UserCredential) : Except Thrown UserCredential :=
  match auth with
  | none => .error (.raw authNotInitializedError)
  | some _ =>
      match sdk with
      | .ok uc => .ok uc
      | .error e => .error (.raw e)

/-- `register` from the base variant's `getAuthService` (firebase.ts lines
242-253): no try/catch around the SDK calls. -/
def gasRegister (auth : Option Auth) (data : RegisterData)
    (createSdk : SdkOutcome UserCredential) (updateSdk : SdkOutcome Unit) :
    Except Thrown UserCredential :=
  match auth with
  | none => .error (.raw authNotInitializedError)
  | some _ =>
      match createSdk with
      | .error e => .error (.raw e)
      | .ok uc =>
          if shouldUpdateProfile data uc then
            match updateSdk with
            | .error e => .error (.raw e)
            | .ok _ => .ok uc
          else .ok uc

/-- `signOut` from the base variant's `getAuthService` (firebase.ts lines
254-257): no try/catch. -/
def gasSignOut (auth : Option Auth) (sdk : SdkOutcome Unit) : Except Thrown Unit :=
  match auth with
  | none => .error (.raw authNotInitializedError)
  | some _ =>
      match sdk with
      | .ok u => .ok u
      | .error e => .error (.raw e)

/-- `sendPasswordReset` from the base variant's `getAuthService`
(firebase.ts lines 258-261): no try/catch. -/
def gasSendPasswordReset (auth : Option Auth) (email : String)
    (sdk : SdkOutcome Unit) : Except Thrown Unit :=
  match auth with
  | none => .error (.raw authNotInitializedError)
  | some _ =>
      match sdk with
      | .ok u => .ok u
      | .error e => .error (.raw e)

/-- `confirmPasswordReset` from the base variant's `getAuthService`
(firebase.ts lines 262-265): no try/catch. -/
def gasConfirmPasswordReset (auth : Option Auth) (code newPassword : String)
    (sdk : SdkOutcome Unit) : Except Thrown Unit :=
  match auth with
  | none => .error (.raw authNotInitializedError)
  | some _ =>
      match sdk with
      | .ok u => .ok u
      | .error e => .error (.raw e)

/-- `sendEmailVerification` from the base variant's `getAuthService`
(firebase.ts lines 269-272): no try/catch. -/
def gasSendEmailVerification (currentUser : Option User)
    (sdk : SdkOutcome Unit) : Except Thrown Unit :=
  match currentUser with
  | none => .error (.raw noUserSignedInError)
  | some _ =>
      match sdk with
      | .ok u => .ok u
      | .error e => .error (.raw e)

/-- `reloadUser` from the base variant's `getAuthService` (firebase.ts lines
273-276): no try/catch. -/
def gasReloadUser (currentUser : Option User) (sdk : SdkOutcome Unit) :
    Except Thrown Unit :=
  match currentUser with
  | none => .error (.raw noUserSignedInError)
  | some _ =>
      match sdk with
      | .ok u => .ok u
      | .error e => .error (.raw e)

/-- A call the form handlers place on the auth service facade (the SDK-facing
operations; acquiring the service object itself makes no network call). -/
inductive ServiceCall where
  | signInCall (email password : String)
  | registerCall (email password : String) (displayName : Option String)
  | sendEmailVerificationCall
  | confirmPasswordResetCall (oobCode newPassword : String)
deriving Repr, DecidableEq

/-- Events the login form can dispatch (`success: {email}` and
`error: {error}`; the modelled error payload is the message the form reads
off the caught value). -/
inductive LoginEvent where
  | success (email : String)
  | errorEvt (message : String)
deriving Repr, DecidableEq

/-- How the try block of the login form's `handleSubmit` settles: the service
lookup throws, `signIn` rejects (the form reads `.message` off the caught
value), or `signIn` resolves. -/
inductive LoginOutcome where
  | serviceUnavailable (message : String)
  | signInFailed (message : String)
  | ok
deriving Repr, DecidableEq

/-- State of the login form after `handleSubmit` completes, together with the
trace of facade calls and dispatched events. -/
structure LoginSubmitResult where
  loading : Bool
  error : Option String
  serviceCalls : List ServiceCall
  events : List LoginEvent
deriving Repr, DecidableEq

/-- `handleSubmit` of the login form (login-form.svelte lines 34-55): set
loading, clear the error, sign in; on success dispatch `success` with the
submitted email (and possibly redirect); on a caught failure record its
message and dispatch `error`; the finally block clears loading on every
path. -/
def loginHandleSubmit (email password : String) (outcome : LoginOutcome) :
    LoginSubmitResult :=
  match outcome with
  | .serviceUnavailable msg =>
      { loading := false
        error := some msg
        serviceCalls := []
        events := [.errorEvt msg] }
  | .signInFailed msg =>
      { loading := false
        error := some msg
        serviceCalls := [.signInCall email password]
        events := [.errorEvt msg] }
  | .ok =>
      { loading := false
        error := none
        serviceCalls := [.signInCall email password]
        events := [.success email] }

/-- Events the register form can dispatch. -/
inductive RegisterEvent where
  | success (email : String)
  | errorEvt (message : String)
deriving Repr, DecidableEq

/-- How the try block of the register form's `handleSubmit` settles. -/
inductive RegisterOutcome where
  | serviceUnavailable (message : String)
  | registerFailed (message : String)
  | verifyFailed (message : String)
  | ok
deriving Repr, DecidableEq

/-- State of the register form after `handleSubmit` completes, with the trace
of facade calls and dispatched events. -/
structure RegisterSubmitResult where
  loading : Bool
  error : Option String
  serviceCalls : List ServiceCall
  events : List RegisterEvent
deriving Repr, DecidableEq

/-- `handleSubmit` of the register form (register-form.svelte lines 400-441):
set loading and clear the error; if the two password inputs differ, set the
mismatch message, clear loading and return; if the password is shorter than 6
characters, set the length message, clear loading and return; otherwise call
`register` then `sendEmailVerification`, dispatching `success` with the
submitted email or catching a failure into the error state and an `error`
event; the finally block clears loading. -/
def registerHandleSubmit (email password confirmPassword displayName : String)
    (requireDisplayName : Bool) (outcome : RegisterOutcome) :
    RegisterSubmitResult :=
  if password ≠ confirmPassword then
    { loading := false
      error := some "Passwords do not match"
      serviceCalls := []
      events := [] }
  else if password.length < 6 then
    { loading := false
      error := some "Password must be at least 6 characters"
      serviceCalls := []
      events := [] }
  else
    match outcome with
    | .serviceUnavailable msg =>
        { loading := false
          error := some msg
          serviceCalls := []
          events := [.errorEvt msg] }
    | .registerFailed msg =>
        { loading := false
          error := some msg
          serviceCalls :=
            [.registerCall email password
              (if requireDisplayName then some displayName else none)]
          events := [.errorEvt msg] }
    | .verifyFailed msg =>
        { loading := false
          error := some msg
          serviceCalls :=
            [.registerCall email password
              (if requireDisplayName then some displayName else none),
             .sendEmailVerificationCall]
          events := [.errorEvt msg] }
    | .ok =>
        { loading := false
          error := none
          serviceCalls :=
            [.registerCall email password
              (if requireDisplayName then some displayName else none),
             .sendEmailVerificationCall]
          events := [.success email] }

/-- Events the reset-password form can dispatch (`success` carries no
payload). -/
inductive ResetEvent where
  | success
  | errorEvt (message : String)
deriving Repr, DecidableEq

/-- How the try block of the reset-password form's `handleSubmit` settles. -/
inductive ResetOutcome where
  | serviceUnavailable (message : String)
  | confirmFailed (message : String)
  | ok
deriving Repr, DecidableEq

/-- State of the reset-password form after `handleSubmit` completes. -/
structure ResetSubmitResult where
  loading : Bool
  success : Bool
  error : Option String
  serviceCalls : List ServiceCall
  events : List ResetEvent
deriving Repr, DecidableEq

/-- `handleSubmit` of the reset-password form (reset-password-form.svelte
lines 31-69): same synchronous validation as registration (mismatch message,
then minimum length), then `confirmPasswordReset(oobCode, newPassword)`;
success sets the success flag and dispatches `success`; a caught failure
records its message; finally clears loading. -/
def resetPasswordHandleSubmit (oobCode newPassword confirmPassword : String)
    (outcome : ResetOutcome) : ResetSubmitResult :=
  if newPassword ≠ confirmPassword then
    { loading := false
      success := false
      error := some "Passwords do not match"
      serviceCalls := []
      events := [] }
  else if newPassword.length < 6 then
    { loading := false
      success := false
      error := some "Password must be at least 6 characters"
      serviceCalls := []
      events := [] }
  else
    match outcome with
    | .serviceUnavailable msg =>
        { loading := false
          success := false
          error := some msg
          serviceCalls := []
          events := [.errorEvt msg] }
    | .confirmFailed msg =>
        { loading := false
          success := false
          error := some msg
          serviceCalls := [.confirmPasswordResetCall oobCode newPassword]
          events := [.errorEvt msg] }
    | .ok =>
        { loading := false
          success := true
          error := none
          serviceCalls := [.confirmPasswordResetCall oobCode newPassword]
          events := [.success] }

/-- An enrolled second-factor hint from the SDK resolver's `hints` list. -/
structure MultiFactorHint where
  uid : String
  factorId : String
  phoneNumber : Option String
deriving Repr, DecidableEq

/-- Default value of the MFA challenge form's `selectedIndex` prop
(mfa-challenge-form.svelte line 19): `selectedIndex = 0`. -/
def selectedIndexDefault : Nat := 0

/-- `selectedHint` of the MFA challenge form (mfa-challenge-form.svelte line
35): `resolver.hints[selectedIndex]`, plain indexing (out of range gives
`undefined`, modelled as `none`). -/
def mfaChallengeSelectedHint (hints : List MultiFactorHint)
    (selectedIndex : Nat) : Option MultiFactorHint :=
  hints[selectedIndex]?

/-- Initial value of `localSelectedIndex` in the extended MFA challenge form
(mfa-setup-form.svelte line 410): the `selectedIndex` prop unchanged. -/
def localSelectedIndexInit (selectedIndex : Nat) : Nat := selectedIndex

/-- `selectedHint` of the extended MFA challenge form (mfa-setup-form.svelte
line 418): `resolver.hints[localSelectedIndex]`. -/
def mfaChallengeExtSelectedHint (hints : List MultiFactorHint)
    (localSelectedIndex : Nat) : Option MultiFactorHint :=
  hints[localSelectedIndex]?

/-- A concrete SDK failure: the FirebaseError the SDK rejects with when no
account matches the email. -/
def fbUserNotFoundError : JsValue :=
  .errObj (some "auth/user-not-found") "Firebase: Error (auth/user-not-found)."

/-- C1: every facade operation obtained from `initFirebaseAuth` re-throws an
SDK failure as `normalizeError` of it, but the base variant's
`getAuthService` returns a `signIn` (and siblings, lines 238-276) with no
try/catch, so the raw SDK rejection escapes unnormalized — contradicting the
claim and the code's own comment that these are the same methods as
`initFirebaseAuth`'s. The last conjunct evaluates the escaping value at the
concrete failing input and shows it is not the normalized object. -/
theorem facade_error_normalization_bug :
    (∀ au c e, initSignIn (some au) c (.error e) =
        .error (.normalized (normalizeError e)))
  ∧ (∀ au d e u, initRegister (some au) d (.error e) u =
        .error (.normalized (normalizeError e)))
  ∧ (∀ au e, initSignOut (some au) (.error e) =
        .error (.normalized (normalizeError e)))
  ∧ (∀ au em e, initSendPasswordReset (some au) em (.error e) =
        .error (.normalized (normalizeError e)))
  ∧ (∀ au c p e, initConfirmPasswordReset (some au) c p (.error e) =
        .error (.normalized (normalizeError e)))
  ∧ (∀ u e, initSendEmailVerification (some u) (.error e) =
        .error (.normalized (normalizeError e)))
  ∧ (∀ u e, initReloadUser (some u) (.error e) =
        .error (.normalized (normalizeError e)))
  ∧ (∀ au c e, gasSignIn (some au) c (.error e) = .error (.raw e))
  ∧ Thrown.raw fbUserNotFoundError ≠
      Thrown.normalized (normalizeError fbUserNotFoundError) := by
  refine ⟨fun _ _ _ => rfl, fun _ _ _ _ => rfl, fun _ _ => rfl,
    fun _ _ _ => rfl, fun _ _ _ _ => rfl, fun _ _ => rfl, fun _ _ => rfl,
    fun _ _ _ => rfl, fun h => Thrown.noConfusion h⟩

/-- Witness for C1: at the concrete FirebaseError, the `initFirebaseAuth`
`signIn` rejects with the normalized object while the base
`getAuthService` `signIn` rejects with the raw SDK error. -/
theorem facade_error_normalization_bug_witness :
    initSignIn (some { id := 1, appId := 0 }) { email := "a@b.c", password := "pw" }
        (.error fbUserNotFoundError) =
      .error (.normalized (normalizeError fbUserNotFoundError))
  ∧ gasSignIn (some { id := 1, appId := 0 }) { email := "a@b.c", password := "pw" }
        (.error fbUserNotFoundError) =
      .error (.raw fbUserNotFoundError) :=
  ⟨facade_error_normalization_bug.1 _ _ _,
   facade_error_normalization_bug.2.2.2.2.2.2.2.1 _ _ _⟩

/-- C2: calling `initFirebaseAuth` a second time with the same options is
idempotent: the state (singletons and allocation counter) is unchanged — so
no new app or auth client is created — and the returned service carries the
same app and auth instances as the first call, which are exactly the stored
singletons. -/
theorem initFirebaseAuth_idempotent (options : AuthOptions) (s : FbState) :
    (initFirebaseAuth options (initFirebaseAuth options s).1).1 =
      (initFirebaseAuth options s).1
  ∧ (initFirebaseAuth options (initFirebaseAuth options s).1).2.app =
      (initFirebaseAuth options s).2.app
  ∧ (initFirebaseAuth options (initFirebaseAuth options s).1).2.auth =
      (initFirebaseAuth options s).2.auth
  ∧ (initFirebaseAuth options s).1.firebaseApp =
      some (initFirebaseAuth options s).2.app
  ∧ (initFirebaseAuth options s).1.auth =
      some (initFirebaseAuth options s).2.auth := by
  rcases s with ⟨fApp, fAuth, n⟩
  cases fApp <;> cases fAuth <;> exact ⟨rfl, rfl, rfl, rfl, rfl⟩

/-- C3: with both singletons still null, both variants of `getAuthService`
throw the not-initialized error and no service object (hence no facade
operation) is obtained. -/
theorem getAuthService_before_init (s : FbState)
    (happ : s.firebaseApp = none) (hauth : s.auth = none) :
    getAuthService s = Except.error notInitializedMessage
  ∧ getAuthServiceExt s = Except.error notInitializedMessage := by
  rcases s with ⟨fApp, fAuth, n⟩
  obtain rfl : fApp = none := happ
  obtain rfl : fAuth = none := hauth
  exact ⟨rfl, rfl⟩

/-- Witness for C3: the pristine module state. -/
theorem getAuthService_before_init_witness :
    getAuthService FbState.initial = Except.error notInitializedMessage
  ∧ getAuthServiceExt FbState.initial = Except.error notInitializedMessage :=
  getAuthService_before_init FbState.initial rfl rfl

/-- C4: on mismatched password inputs, the register form sets the error to
the mismatch message and returns without placing any facade call or
dispatching any event; the reset-password form behaves the same on
mismatched new passwords. -/
theorem password_mismatch_blocks_submit
    (email password confirmPassword displayName : String)
    (requireDisplayName : Bool) (regOutcome : RegisterOutcome)
    (oobCode newPassword confirmNewPassword : String)
    (resetOutcome : ResetOutcome)
    (hreg : password ≠ confirmPassword)
    (hreset : newPassword ≠ confirmNewPassword) :
    ((registerHandleSubmit email password confirmPassword displayName
        requireDisplayName regOutcome).error = some "Passwords do not match"
     ∧ (registerHandleSubmit email password confirmPassword displayName
          requireDisplayName regOutcome).serviceCalls = []
     ∧ (registerHandleSubmit email password confirmPassword displayName
          requireDisplayName regOutcome).events = [])
  ∧ ((resetPasswordHandleSubmit oobCode newPassword confirmNewPassword
        resetOutcome).error = some "Passwords do not match"
     ∧ (resetPasswordHandleSubmit oobCode newPassword confirmNewPassword
          resetOutcome).serviceCalls = []
     ∧ (resetPasswordHandleSubmit oobCode newPassword confirmNewPassword
          resetOutcome).events = []) := by
  constructor
  · simp [registerHandleSubmit, hreg]
  · simp [resetPasswordHandleSubmit, hreset]

/-- Witness for C4 at concrete mismatched inputs. -/
theorem password_mismatch_blocks_submit_witness :
    ((registerHandleSubmit "a@b.c" "secret1" "secret2" "Ada" true
        RegisterOutcome.ok).error = some "Passwords do not match"
     ∧ (registerHandleSubmit "a@b.c" "secret1" "secret2" "Ada" true
          RegisterOutcome.ok).serviceCalls = []
     ∧ (registerHandleSubmit "a@b.c" "secret1" "secret2" "Ada" true
          RegisterOutcome.ok).events = [])
  ∧ ((resetPasswordHandleSubmit "oob-1" "secret1" "secret2"
        ResetOutcome.ok).error = some "Passwords do not match"
     ∧ (resetPasswordHandleSubmit "oob-1" "secret1" "secret2"
          ResetOutcome.ok).serviceCalls = []
     ∧ (resetPasswordHandleSubmit "oob-1" "secret1" "secret2"
          ResetOutcome.ok).events = []) :=
  password_mismatch_blocks_submit "a@b.c" "secret1" "secret2" "Ada" true
    RegisterOutcome.ok "oob-1" "secret1" "secret2" ResetOutcome.ok
    (by decide) (by decide)

/-- C5: when the passwords match but are shorter than 6 characters, both the
register form and the reset-password form reject the submission with the
minimum-length message before placing any facade call. -/
theorem password_too_short_blocks_submit
    (email password confirmPassword displayName : String)
    (requireDisplayName : Bool) (regOutcome : RegisterOutcome)
    (oobCode newPassword confirmNewPassword : String)
    (resetOutcome : ResetOutcome)
    (hmatch : password = confirmPassword) (hlen : password.length < 6)
    (hmatch2 : newPassword = confirmNewPassword)
    (hlen2 : newPassword.length < 6) :
    ((registerHandleSubmit email password confirmPassword displayName
        requireDisplayName regOutcome).error =
          some "Password must be at least 6 characters"
     ∧ (registerHandleSubmit email password confirmPassword displayName
          requireDisplayName regOutcome).serviceCalls = [])
  ∧ ((resetPasswordHandleSubmit oobCode newPassword confirmNewPassword
        resetOutcome).error = some "Password must be at least 6 characters"
     ∧ (resetPasswordHandleSubmit oobCode newPassword confirmNewPassword
          resetOutcome).serviceCalls = []) := by
  subst hmatch
  subst hmatch2
  constructor
  · simp [registerHandleSubmit, hlen]
  · simp [resetPasswordHandleSubmit, hlen2]

/-- Witness for C5 at a concrete 3-character password. -/
theorem password_too_short_blocks_submit_witness :
    ((registerHandleSubmit "a@b.c" "abc" "abc" "Ada" true
        RegisterOutcome.ok).error =
          some "Password must be at least 6 characters"
     ∧ (registerHandleSubmit "a@b.c" "abc" "abc" "Ada" true
          RegisterOutcome.ok).serviceCalls = [])
  ∧ ((resetPasswordHandleSubmit "oob-1" "abc" "abc"
        ResetOutcome.ok).error = some "Password must be at least 6 characters"
     ∧ (resetPasswordHandleSubmit "oob-1" "abc" "abc"
          ResetOutcome.ok).serviceCalls = []) :=
  password_too_short_blocks_submit "a@b.c" "abc" "abc" "Ada" true
    RegisterOutcome.ok "oob-1" "abc" "abc" ResetOutcome.ok
    rfl (by decide) rfl (by decide)

/-- C6: the friendly-message lookup is a pure function of the pair (code,
default message): a code present in the table yields that entry's fixed
message whatever the SDK message was, a code absent from the table yields the
SDK message unchanged — in both the base and the extended variant — and the
table maps `auth/user-not-found` to its documented message. -/
theorem getUserFriendlyMessage_pure_lookup :
    (∀ code msg fm, friendlyMessages.lookup code = some fm →
        getUserFriendlyMessage code msg = fm)
  ∧ (∀ code msg, friendlyMessages.lookup code = none →
        getUserFriendlyMessage code msg = msg)
  ∧ (∀ code msg fm, friendlyMessagesExt.lookup code = some fm →
        getUserFriendlyMessageExt code msg = fm)
  ∧ (∀ code msg, friendlyMessagesExt.lookup code = none →
        getUserFriendlyMessageExt code msg = msg)
  ∧ ∀ msg, getUserFriendlyMessage "auth/user-not-found" msg =
      "No account found with this email" := by
  refine ⟨?_, ?_, ?_, ?_, ?_⟩
  · intro code msg fm h
    simp [getUserFriendlyMessage, h]
  · intro code msg h
    simp [getUserFriendlyMessage, h]
  · intro code msg fm h
    simp [getUserFriendlyMessageExt, h]
  · intro code msg h
    simp [getUserFriendlyMessageExt, h]
  · intro msg
    rfl

/-- Witness for C6: a mapped code with an arbitrary SDK message, and an
unmapped code falling back to the SDK message. -/
theorem getUserFriendlyMessage_pure_lookup_witness :
    getUserFriendlyMessage "auth/weak-password" "sdk raw text" =
      "Password should be at least 6 characters"
  ∧ getUserFriendlyMessage "auth/some-new-code" "sdk raw text" =
      "sdk raw text"
  ∧ getUserFriendlyMessageExt "auth/unverified-email" "sdk raw text" =
      "Please verify your email address first" :=
  ⟨getUserFriendlyMessage_pure_lookup.1 "auth/weak-password" "sdk raw text" _ rfl,
   getUserFriendlyMessage_pure_lookup.2.1 "auth/some-new-code" "sdk raw text" rfl,
   getUserFriendlyMessage_pure_lookup.2.2.1 "auth/unverified-email" "sdk raw text" _ rfl⟩

/-- C7: when sign-in succeeds the login form dispatches exactly one event,
the success event carrying exactly the submitted email, and on every settle
path of the handler the loading flag ends false. -/
theorem login_submit_success_and_loading (email password : String) :
    (loginHandleSubmit email password .ok).events = [LoginEvent.success email]
  ∧ ∀ outcome, (loginHandleSubmit email password outcome).loading = false := by
  refine ⟨rfl, ?_⟩
  intro outcome
  cases outcome <;> rfl

/-- C8: the MFA challenge factor is selected purely by indexing the
resolver's hints list, in both the standalone and the extended challenge
form, and the default index (used when no index prop is supplied) selects the
first-listed enrolled factor. -/
theorem mfa_selection_by_index (hints : List MultiFactorHint) (i : Nat) :
    mfaChallengeSelectedHint hints i = hints[i]?
  ∧ mfaChallengeExtSelectedHint hints (localSelectedIndexInit i) = hints[i]?
  ∧ mfaChallengeSelectedHint hints selectedIndexDefault = hints.head?
  ∧ mfaChallengeExtSelectedHint hints
      (localSelectedIndexInit selectedIndexDefault) = hints.head? := by
  refine ⟨rfl, rfl, ?_, ?_⟩ <;>
    (cases hints <;>
      simp [mfaChallengeSelectedHint, mfaChallengeExtSelectedHint,
        localSelectedIndexInit, selectedIndexDefault])

/-- C9: `normalizeError` is total and, on every input that is not an object
carrying both a `code` and a `message` field, returns the `unknown`-coded
shape holding the original input, with the input's own message when it is an
`Error` instance and the fixed fallback text otherwise. -/
theorem normalizeError_unknown_shape (e : JsValue)
    (h : e.codeField = none ∨ e.messageField = none) :
    normalizeError e =
      { code := "unknown"
        message := (e.errorInstanceMessage).getD "An unknown error occurred"
        originalError := e } := by
  cases e with
  | errObj c m =>
      cases c with
      | none => rfl
      | some c => simp [JsValue.codeField, JsValue.messageField] at h
  | plainObj c m =>
      cases c with
      | none => rfl
      | some c =>
          cases m with
          | none => rfl
          | some m => simp [JsValue.codeField, JsValue.messageField] at h
  | nonObj d => rfl

/-- Witness for C9: a thrown primitive gets the fixed fallback message, via
the theorem applied at that input. -/
theorem normalizeError_unknown_shape_witness :
    normalizeError (.nonObj "thrown string") =
      { code := "unknown"
        message := "An unknown error occurred"
        originalError := .nonObj "thrown string" } :=
  normalizeError_unknown_shape (.nonObj "thrown string") (Or.inl rfl)

/-- C10: after any first `initFirebaseAuth` call, a second call with
arbitrary — possibly different — options leaves the module state (both
singletons and the allocation counter) unchanged and returns the same app and
auth instances: the new configuration is silently ignored. -/
theorem initFirebaseAuth_ignores_new_config
    (o1 o2 : AuthOptions) (s : FbState) :
    (initFirebaseAuth o2 (initFirebaseAuth o1 s).1).1 =
      (initFirebaseAuth o1 s).1
  ∧ (initFirebaseAuth o2 (initFirebaseAuth o1 s).1).2.app =
      (initFirebaseAuth o1 s).2.app
  ∧ (initFirebaseAuth o2 (initFirebaseAuth o1 s).1).2.auth =
      (initFirebaseAuth o1 s).2.auth := by
  rcases s with ⟨fApp, fAuth, n⟩
  cases fApp <;> cases fAuth <;> exact ⟨rfl, rfl, rfl⟩

end AuthFrontend
